import Mathlib

/-
Verification development for the two computational cores of the repository:

* the daily call-metrics aggregator
  (`daily_agent_metrics/export_agent_metrics.py`): 90th-percentile
  computation over per-agent call durations and CSV serialization;

* the John Deere equipment-quote calculator, in its three variants:
  - `john_deere_demo/demo_agent/john_deere/tools.py` (constant-driven,
    namespace `JD` below),
  - `john_deere_demo/src/demo_agent/john_deere/tools.py` (namespace
    `JDSrc`),
  - `python/wip/demo_agent/src/demo_agent/john_deere/tools.py` (inline
    constants, namespace `JDWip`).

Python floats are modelled as exact rationals (`ℚ`), Python `int` as `ℤ`
(or `ℕ` where the source value is a length or count).  Python strings are
modelled as Lean `String`s, with the string primitives used by the code
(`str.strip`, `str.split(",")`, `str.upper`) embedded explicitly over the
underlying character lists, restricted to the ASCII behaviour the code
exercises.  The impure inputs of the quote generator (the current date and
Python's process-seeded `hash`) are passed in as explicit parameters.
-/

/-! ## Python string primitives, modelled on character lists -/

/-- Model of Python `str.strip()` on a character list: drop leading and
trailing whitespace characters (ASCII whitespace; Python also strips a few
more exotic characters, which the quote code never meets). -/
def pyStripChars (l : List Char) : List Char :=
  ((l.dropWhile Char.isWhitespace).reverse.dropWhile Char.isWhitespace).reverse

/-- Model of Python `str.strip()`. -/
def pyStrip (s : String) : String :=
  String.mk (pyStripChars s.data)

/-- Model of Python `str.split(",")` on a character list: split at every
comma; `"".split(",")` is `[""]`, matching Python. -/
def pySplitCommaChars : List Char → List (List Char)
  | [] => [[]]
  | a :: rest =>
    let ts := pySplitCommaChars rest
    if a = ',' then [] :: ts
    else (a :: ts.headD []) :: ts.tail

/-- Model of Python `str.split(",")`. -/
def pySplitComma (s : String) : List String :=
  (pySplitCommaChars s.data).map String.mk

/-- Model of Python `str.upper()`: per-character ASCII uppercasing
(`Char.toUpper` uppercases exactly the basic latin letters, as Python does
on the ASCII inputs this code handles). -/
def pyUpper (s : String) : String :=
  String.mk (s.data.map Char.toUpper)

/-! ## Substring predicate -/

/-- `strContains s t` holds when `t` occurs contiguously inside `s`. -/
def strContains (s t : String) : Prop :=
  t.data <:+: s.data

/-! ## Python fixed-point number formatting

The quote templates format money with `:,.2f` (thousands separators, two
decimals) and the APR with `:.1f` / `:.0f`.  Over the exact-rational model
of the arithmetic, Python's float formatting is rounding half-to-even at
the requested precision.  The functions below embed that for the
nonnegative values the templates render (a negative value would print a
sign in Python; no claim touches that case). -/

/-- Round to the nearest integer, ties to the even integer (the rounding
used by Python's fixed-point float formatting). -/
def roundHalfEven (q : ℚ) : ℤ :=
  if q - ⌊q⌋ < 1 / 2 then ⌊q⌋
  else if 1 / 2 < q - ⌊q⌋ then ⌊q⌋ + 1
  else if ⌊q⌋ % 2 = 0 then ⌊q⌋ else ⌊q⌋ + 1

/-- Insert a comma after every group of three characters, on a reversed
digit list (helper for the thousands separator of `:,.2f`). -/
def commaRev : List Char → List Char
  | a :: b :: c :: d :: rest => a :: b :: c :: ',' :: commaRev (d :: rest)
  | l => l

/-- Insert thousands separators into a digit string. -/
def insertThousandsSep (s : String) : String :=
  String.mk ((commaRev s.data.reverse).reverse)

/-- Left-pad the decimal representation of `n` with zeros to `width`
characters (the fractional digits of a fixed-point rendering, and the
`{h:02d}` of the quote number). -/
def padZeros (width : ℕ) (n : ℕ) : String :=
  String.mk (List.replicate (width - (Nat.repr n).length) '0') ++ Nat.repr n

/-- Python `format(x, '.<prec>f')` for nonnegative `x`. -/
def fmtFixed (prec : ℕ) (q : ℚ) : String :=
  let scaled := (roundHalfEven (q * 10 ^ prec)).toNat
  let ip := scaled / 10 ^ prec
  let fp := scaled % 10 ^ prec
  if prec = 0 then Nat.repr ip
  else Nat.repr ip ++ "." ++ padZeros prec fp

/-- Python `format(x, ',.<prec>f')` for nonnegative `x`. -/
def fmtCommaFixed (prec : ℕ) (q : ℚ) : String :=
  let scaled := (roundHalfEven (q * 10 ^ prec)).toNat
  let ip := scaled / 10 ^ prec
  let fp := scaled % 10 ^ prec
  if prec = 0 then insertThousandsSep (Nat.repr ip)
  else insertThousandsSep (Nat.repr ip) ++ "." ++ padZeros prec fp

/-- Number of displayed decimal places of a rendered number: the count of
characters after the last dot, `0` when there is no dot. -/
def decimalPlaces (s : String) : ℕ :=
  if '.' ∈ s.data then (s.data.reverse.takeWhile (fun c => c != '.')).length
  else 0

/-! ## Variant A: `john_deere_demo/demo_agent` (constant-driven)

Constants from `demo_agent/constants.py`, tool logic from
`demo_agent/john_deere/tools.py`. -/

namespace JD

/-- Catalog entry, from `constants.EquipmentInfo`. -/
structure EquipmentInfo where
  price : ℚ
  type : String
deriving DecidableEq

def DEFAULT_FINANCING_TERM : ℤ := 60

def DEFAULT_ANNUAL_INTEREST_RATE : ℚ := 0.05

def TAX_AND_FEES_MULTIPLIER : ℚ := 1.08

def OPTIONS_COST_PERCENTAGE : ℚ := 0.1

def SUCCESS_QUOTE_VALID : String :=
  "Quote valid for 30 days. Contact your dealer for availability."

/-- `constants.EQUIPMENT_PRICING`, as an insertion-ordered association
list (Python dicts preserve insertion order). -/
def EQUIPMENT_PRICING : List (String × EquipmentInfo) :=
  [("1025R", ⟨17500, "Compact Utility Tractor"⟩),
   ("3038E", ⟨24000, "Utility Tractor"⟩),
   ("5075E", ⟨48500, "Agricultural Tractor"⟩),
   ("6155R", ⟨135000, "Row Crop Tractor"⟩),
   ("S760", ⟨502000, "Combine Harvester"⟩),
   ("S780", ⟨545000, "Combine Harvester"⟩),
   ("DB60", ⟨85000, "Planter"⟩)]

/-- `constants.get_equipment_price`; the Python function raises on a
missing model, embedded as `none`. -/
def get_equipment_price (model : String) : Option ℚ :=
  (List.lookup model EQUIPMENT_PRICING).map EquipmentInfo.price

/-- `constants.get_equipment_type`; the Python function raises on a
missing model, embedded as `none`. -/
def get_equipment_type (model : String) : Option String :=
  (List.lookup model EQUIPMENT_PRICING).map EquipmentInfo.type

/-- `tools._parse_optional_features`. -/
def _parse_optional_features (optional_features : String) : List String :=
  if pyStrip optional_features = "" then []
  else
    ((pySplitComma optional_features).filter
      (fun feature => pyStrip feature != "")).map pyStrip

/-- `tools._calculate_options_cost`. -/
def _calculate_options_cost (features_list : List String) (base_price : ℚ) : ℚ :=
  (features_list.length : ℚ) * (base_price * OPTIONS_COST_PERCENTAGE)

/-- `tools._calculate_monthly_payment`, abstracted over the module
constant `DEFAULT_ANNUAL_INTEREST_RATE` that its body reads (so that the
rate-zero branch of the source is statable). -/
def _calculate_monthly_payment_core (annual_rate total_price : ℚ)
    (financing_term : ℤ) : ℚ :=
  if financing_term ≤ 0 then 0
  else
    let monthly_rate := annual_rate / 12
    if monthly_rate = 0 then total_price / (financing_term : ℚ)
    else
      let numerator :=
        total_price * monthly_rate * (1 + monthly_rate) ^ financing_term.toNat
      let denominator := (1 + monthly_rate) ^ financing_term.toNat - 1
      numerator / denominator

/-- `tools._calculate_monthly_payment` with the module's actual rate. -/
def _calculate_monthly_payment (total_price : ℚ) (financing_term : ℤ) : ℚ :=
  _calculate_monthly_payment_core DEFAULT_ANNUAL_INTEREST_RATE total_price
    financing_term

/-- `tools._generate_quote_number`.  `date_part` stands for
`datetime.now().strftime('%Y%m%d')` and `pyHash` for Python's
process-seeded `hash`, both impure inputs passed explicitly. -/
def _generate_quote_number (pyHash : String → ℤ) (date_part : String)
    (customer_name : String) : String :=
  "JD" ++ date_part ++ padZeros 2 ((pyHash customer_name).natAbs % 100)

/-- The APR field of the financing line:
`f"{DEFAULT_ANNUAL_INTEREST_RATE * 100:.0f}"` (note: zero decimals). -/
def apr_display : String :=
  fmtFixed 0 (DEFAULT_ANNUAL_INTEREST_RATE * 100)

/-- Header block of the quote template (through the customer line). -/
def header_section (quote_number quote_date customer_name : String) : String :=
  "JOHN DEERE EQUIPMENT QUOTE\nQuote #" ++ quote_number ++ " | Date: " ++
    quote_date ++ "\nCustomer: " ++ customer_name

/-- EQUIPMENT block of the quote template. -/
def equipment_section (model_upper equipment_type : String)
    (base_price : ℚ) : String :=
  "\n\nEQUIPMENT:\n• Model: " ++ model_upper ++ "\n• Type: " ++
    equipment_type ++ "\n• Base Price: $" ++ fmtCommaFixed 2 base_price

/-- OPTIONAL FEATURES block of the quote template. -/
def options_section (features_display : String) (options_cost : ℚ) : String :=
  "\n\nOPTIONAL FEATURES:\n" ++ features_display ++ "\nOptions Cost: $" ++
    fmtCommaFixed 2 options_cost

/-- TOTAL PRICE block of the quote template. -/
def pricing_section (total_price : ℚ) : String :=
  "\n\nTOTAL PRICE: $" ++ fmtCommaFixed 2 total_price ++
    "\n(Includes taxes, delivery, and setup)"

/-- FINANCING block of the quote template. -/
def financing_section (financing_term : ℤ) (monthly_payment : ℚ) : String :=
  "\n\nFINANCING:\nTerm: " ++ toString financing_term ++ " months @ " ++
    apr_display ++ "% APR\nMonthly Payment: $" ++
    fmtCommaFixed 2 monthly_payment

/-- `tools._format_quote`: the template string, written as the
concatenation of its blocks (the blocks split the f-string exactly at
literal boundaries; see `quote_template_structure`). -/
def _format_quote (pyHash : String → ℤ) (quote_date date_part : String)
    (customer_name model_upper equipment_type : String) (base_price : ℚ)
    (features_list : List String) (options_cost total_price : ℚ)
    (financing_term : ℤ) (monthly_payment : ℚ) : String :=
  let quote_number := _generate_quote_number pyHash date_part customer_name
  let features_display :=
    if features_list.isEmpty then "• None selected"
    else
      String.intercalate ("\n")
        (features_list.map (fun feature => "• " ++ feature))
  header_section quote_number quote_date customer_name ++
    equipment_section model_upper equipment_type base_price ++
    options_section features_display options_cost ++
    pricing_section total_price ++
    financing_section financing_term monthly_payment ++
    ("\n\n" ++ SUCCESS_QUOTE_VALID)

/-- `tools.generate_john_deere_quote`.  The `match` on the catalog lookup
embeds the `model_upper not in EQUIPMENT_PRICING` guard together with the
`get_equipment_price` / `get_equipment_type` accesses, which cannot fail
on the guarded branch. -/
def generate_john_deere_quote (pyHash : String → ℤ)
    (quote_date date_part : String) (customer_name model : String)
    (optional_features : String) (financing_term : ℤ) : String :=
  let model_upper := pyUpper model
  match List.lookup model_upper EQUIPMENT_PRICING with
  | none =>
    "Model " ++ model ++ " not found. Available models: " ++
      String.intercalate (", ") (EQUIPMENT_PRICING.map Prod.fst)
  | some equipment =>
    let base_price := equipment.price
    let equipment_type := equipment.type
    let features_list := _parse_optional_features optional_features
    let options_cost := _calculate_options_cost features_list base_price
    let subtotal := base_price + options_cost
    let total_price := subtotal * TAX_AND_FEES_MULTIPLIER
    let monthly_payment := _calculate_monthly_payment total_price financing_term
    _format_quote pyHash quote_date date_part customer_name model_upper
      equipment_type base_price features_list options_cost total_price
      financing_term monthly_payment

/-- The numeric pipeline of `generate_john_deere_quote` (lines 75–87 of
`tools.py`): options cost, subtotal, total price and monthly payment, or
`none` when the model lookup fails. -/
def quote_totals (model optional_features : String) (financing_term : ℤ) :
    Option (ℚ × ℚ × ℚ × ℚ) :=
  match List.lookup (pyUpper model) EQUIPMENT_PRICING with
  | none => none
  | some equipment =>
    let base_price := equipment.price
    let features_list := _parse_optional_features optional_features
    let options_cost := _calculate_options_cost features_list base_price
    let subtotal := base_price + options_cost
    let total_price := subtotal * TAX_AND_FEES_MULTIPLIER
    let monthly_payment := _calculate_monthly_payment total_price financing_term
    some (options_cost, subtotal, total_price, monthly_payment)

end JD

/-! ## Variant B: `john_deere_demo/src/demo_agent`

Constants from `src/demo_agent/constants.py` (annual rate 0.049), format
from `src/demo_agent/john_deere/tools.py`. -/

namespace JDSrc

def DEFAULT_FINANCING_TERM : ℤ := 60

def DEFAULT_INTEREST_RATE : ℚ := 0.049

def TAX_AND_FEES_MULTIPLIER : ℚ := 1.08

/-- `constants.get_equipment_type` of this variant (total: it has an
else-branch instead of raising). -/
def get_equipment_type (model : String) : String :=
  if model = "6155R" ∨ model = "6120M" then "Row Crop Tractor"
  else if model = "5075E" then "Agricultural Tractor"
  else "Tractor"

/-- The APR field of this variant's financing line:
`f"{DEFAULT_INTEREST_RATE * 100:.1f}"` (one decimal). -/
def apr_display : String :=
  fmtFixed 1 (DEFAULT_INTEREST_RATE * 100)

/-- `tools._format_quote` of this variant. -/
def _format_quote (customer_name equipment_model : String)
    (base_price options_cost subtotal tax_and_fees total monthly_payment : ℚ)
    (quote_number quote_date : String) : String :=
  let equipment_type := get_equipment_type equipment_model
  "JOHN DEERE EQUIPMENT QUOTE\nQuote #" ++ quote_number ++ " | Date: " ++
    quote_date ++ "\nCustomer: " ++ customer_name ++
    "\n\nEQUIPMENT:\n• Model: " ++ equipment_model ++
    "\n• Type: " ++ equipment_type ++
    "\n• Base Price: $" ++ fmtCommaFixed 2 base_price ++
    "\n\nOPTIONAL FEATURES:\nOptions Cost: $" ++ fmtCommaFixed 2 options_cost ++
    "\n\nPRICING BREAKDOWN:\n• Base Price: $" ++ fmtCommaFixed 2 base_price ++
    "\n• Options: $" ++ fmtCommaFixed 2 options_cost ++
    "\n• Subtotal: $" ++ fmtCommaFixed 2 subtotal ++
    "\n• Tax & Fees: $" ++ fmtCommaFixed 2 tax_and_fees ++
    "\n• TOTAL: $" ++ fmtCommaFixed 2 total ++
    "\n\nFINANCING:\nTerm: " ++ toString DEFAULT_FINANCING_TERM ++
    " months @ " ++ apr_display ++
    ("% APR\nMonthly Payment: $" ++ fmtCommaFixed 2 monthly_payment ++
      "\n\nQuote valid for 30 days. Contact your dealer for availability.")

end JDSrc

/-! ## Variant W: `python/wip/demo_agent` (inline constants) -/

namespace JDWip

/-- The inline `equipment_pricing` dict of the wip variant (entry shape
identical to variant A's, so the same record type is used). -/
def equipment_pricing : List (String × JD.EquipmentInfo) :=
  [("1025R", ⟨17500, "Compact Utility Tractor"⟩),
   ("3038E", ⟨24000, "Utility Tractor"⟩),
   ("5075E", ⟨48500, "Agricultural Tractor"⟩),
   ("6155R", ⟨135000, "Row Crop Tractor"⟩),
   ("S760", ⟨502000, "Combine Harvester"⟩),
   ("S780", ⟨545000, "Combine Harvester"⟩),
   ("DB60", ⟨85000, "Planter"⟩)]

/-- The numeric pipeline of the wip variant's
`generate_john_deere_quote` (lines 69–94): inline feature parsing (no
strip-guard), literal constants 0.1, 1.08 and 0.05. -/
def quote_totals (model optional_features : String) (financing_term : ℤ) :
    Option (ℚ × ℚ × ℚ × ℚ) :=
  match List.lookup (pyUpper model) equipment_pricing with
  | none => none
  | some equipment =>
    let base_price := equipment.price
    let features_list :=
      ((pySplitComma optional_features).filter
        (fun f => pyStrip f != "")).map pyStrip
    let options_cost := (features_list.length : ℚ) * (base_price * 0.1)
    let subtotal := base_price + options_cost
    let total_price := subtotal * 1.08
    let monthly_payment :=
      if 0 < financing_term then
        total_price * (0.05 / 12) * (1 + 0.05 / 12) ^ financing_term.toNat /
          ((1 + 0.05 / 12) ^ financing_term.toNat - 1)
      else 0
    some (options_cost, subtotal, total_price, monthly_payment)

end JDWip

/-! ## Call-metrics aggregator (`daily_agent_metrics/export_agent_metrics.py`) -/

namespace Metrics

/-- `sorted(call_durations)` (ascending). -/
def sort_durations (call_durations : List ℚ) : List ℚ :=
  call_durations.insertionSort (· ≤ ·)

/-- `p90_index = int(len(sorted_durations) * 0.9)`: `int` truncates toward
zero, which on the nonnegative value `len * 0.9` is the floor. -/
def p90_index (call_durations : List ℚ) : ℕ :=
  ⌊((sort_durations call_durations).length : ℚ) * 0.9⌋₊

/-- `p90_length = sorted_durations[p90_index] if p90_index <
len(sorted_durations) else sorted_durations[-1]`; `sorted_durations[-1]`
on an empty list raises in Python, embedded by `getLast?` returning
`none`. -/
def p90_length (call_durations : List ℚ) : Option ℚ :=
  if h : p90_index call_durations < (sort_durations call_durations).length then
    some ((sort_durations call_durations).get ⟨p90_index call_durations, h⟩)
  else
    (sort_durations call_durations).getLast?

/-- One aggregated row, as assembled in `get_agent_metrics`. -/
structure AgentMetric where
  agent_id : String
  avg_call_length_sec : ℚ
  p90_call_length_sec : ℚ
  total_calls : ℕ

/-- A CSV cell value as handed to `csv.DictWriter` (stringification of
the values is the writer's concern, not the aggregator's). -/
inductive CsvCell where
  | str : String → CsvCell
  | rat : ℚ → CsvCell
  | nat : ℕ → CsvCell
deriving DecidableEq

/-- The `fieldnames` list of `generate_csv`. -/
def csv_fieldnames : List String :=
  ["agent_id", "avg_call_length_sec", "p90_call_length_sec", "total_calls",
   "date"]

/-- `generate_csv`: the rows written to the CSV file, as cell lists in
`fieldnames` order — `writer.writeheader()` emits the header row, then one
row per metric with the target date appended. -/
def generate_csv (metrics : List AgentMetric) (date_str : String) :
    List (List CsvCell) :=
  (csv_fieldnames.map CsvCell.str) ::
    metrics.map (fun metric =>
      [CsvCell.str metric.agent_id, CsvCell.rat metric.avg_call_length_sec,
       CsvCell.rat metric.p90_call_length_sec, CsvCell.nat metric.total_calls,
       CsvCell.str date_str])

end Metrics

/-! ## Supporting lemmas: characters and strings -/

theorem toNat_ofNat_valid (n : ℕ) (h : n.isValidChar) :
    (Char.ofNat n).toNat = n := by
  simp [Char.ofNat, h, Char.ofNatAux, Char.toNat, UInt32.toNat]

theorem toUpper_toUpper (c : Char) : c.toUpper.toUpper = c.toUpper := by
  unfold Char.toUpper
  by_cases h : 97 ≤ c.toNat ∧ c.toNat ≤ 122
  · rw [if_pos h]
    have hv : (c.toNat - 32).isValidChar := Or.inl (by omega)
    have ht : (Char.ofNat (c.toNat - 32)).toNat = c.toNat - 32 :=
      toNat_ofNat_valid _ hv
    rw [if_neg]
    omega
  · rw [if_neg h, if_neg h]

theorem pyUpper_pyUpper (s : String) : pyUpper (pyUpper s) = pyUpper s := by
  unfold pyUpper
  refine congrArg String.mk ?_
  show (s.data.map Char.toUpper).map Char.toUpper = s.data.map Char.toUpper
  rw [List.map_map]
  exact List.map_congr_left (fun c _ => toUpper_toUpper c)

theorem pySplitCommaChars_ne_nil (l : List Char) : pySplitCommaChars l ≠ [] := by
  induction l with
  | nil => simp [pySplitCommaChars]
  | cons a rest ih =>
    unfold pySplitCommaChars
    split <;> simp

theorem mem_of_mem_pySplitCommaChars (l : List Char) :
    ∀ f ∈ pySplitCommaChars l, ∀ a ∈ f, a ∈ l := by
  induction l with
  | nil =>
    intro f hf a ha
    simp [pySplitCommaChars] at hf
    subst hf
    simp at ha
  | cons b rest ih =>
    intro f hf a ha
    simp only [pySplitCommaChars] at hf
    by_cases hb : b = ','
    · rw [if_pos hb] at hf
      rcases List.mem_cons.mp hf with h1 | h2
      · subst h1
        simp at ha
      · exact List.mem_cons_of_mem _ (ih f h2 a ha)
    · rw [if_neg hb] at hf
      rcases List.mem_cons.mp hf with h1 | h2
      · subst h1
        rcases List.mem_cons.mp ha with h3 | h3
        · subst h3
          exact List.mem_cons_self _ _
        · have hne := pySplitCommaChars_ne_nil rest
          have hmem : (pySplitCommaChars rest).headD [] ∈ pySplitCommaChars rest := by
            cases hts : pySplitCommaChars rest with
            | nil => exact absurd hts hne
            | cons t ts => simp
          exact List.mem_cons_of_mem _ (ih _ hmem a h3)
      · have hmem : f ∈ pySplitCommaChars rest := List.mem_of_mem_tail h2
        exact List.mem_cons_of_mem _ (ih f hmem a ha)

theorem pyStripChars_eq_nil_iff (l : List Char) :
    pyStripChars l = [] ↔ ∀ a ∈ l, a.isWhitespace = true := by
  unfold pyStripChars
  rw [List.reverse_eq_nil_iff, List.dropWhile_eq_nil_iff]
  constructor
  · intro h a ha
    have hsplit := List.takeWhile_append_dropWhile Char.isWhitespace l
    rw [← hsplit] at ha
    rcases List.mem_append.mp ha with h1 | h2
    · exact List.mem_takeWhile_imp h1
    · exact h a (List.mem_reverse.mpr h2)
  · intro h a ha
    have ha2 : a ∈ l.dropWhile Char.isWhitespace := List.mem_reverse.mp ha
    exact h a ((List.dropWhile_sublist Char.isWhitespace).subset ha2)

theorem pyStrip_eq_empty_iff (s : String) :
    pyStrip s = "" ↔ ∀ a ∈ s.data, a.isWhitespace = true := by
  constructor
  · intro h
    exact (pyStripChars_eq_nil_iff s.data).mp (congrArg String.data h)
  · intro h
    unfold pyStrip
    rw [(pyStripChars_eq_nil_iff s.data).mpr h]

/-! ## Supporting lemmas: the substring predicate -/

theorem strContains_extend_right {s t : String} (u : String)
    (h : strContains s t) : strContains (s ++ u) t := by
  unfold strContains at *
  rw [String.data_append]
  exact h.trans (List.prefix_append s.data u.data).isInfix

theorem strContains_extend_left {s t : String} (u : String)
    (h : strContains s t) : strContains (u ++ s) t := by
  unfold strContains at *
  rw [String.data_append]
  exact h.trans (List.suffix_append u.data s.data).isInfix

theorem strContains_mid (x a b r : String) :
    strContains ((x ++ a) ++ (b ++ r)) (a ++ b) := by
  unfold strContains
  simp only [String.data_append]
  exact ⟨x.data, r.data, by simp [List.append_assoc]⟩

theorem strContains_right_mid (x a t : String) :
    strContains (x ++ (a ++ t)) t := by
  unfold strContains
  simp only [String.data_append]
  exact ⟨x.data ++ a.data, [], by simp [List.append_assoc]⟩

theorem strContains_suffix (x t : String) : strContains (x ++ t) t := by
  unfold strContains
  rw [String.data_append]
  exact ⟨x.data, [], by simp⟩

/-! ## Supporting lemmas: the percentile computation -/

theorem sort_durations_length (l : List ℚ) :
    (Metrics.sort_durations l).length = l.length :=
  List.length_insertionSort _ _

theorem p90_index_eq (l : List ℚ) : Metrics.p90_index l = 9 * l.length / 10 := by
  unfold Metrics.p90_index
  rw [show ((Metrics.sort_durations l).length : ℚ) * 0.9 =
      ((9 * (Metrics.sort_durations l).length : ℕ) : ℚ) / ((10 : ℕ) : ℚ) by
    push_cast
    ring]
  rw [Nat.floor_div_nat, Nat.floor_natCast, sort_durations_length]

theorem p90_length_then_branch (l : List ℚ) (h : l ≠ []) :
    Metrics.p90_index l < (Metrics.sort_durations l).length ∧
    Metrics.p90_length l =
      some ((Metrics.sort_durations l).getD (Metrics.p90_index l) 0) := by
  have hpos : 0 < l.length := List.length_pos.mpr h
  have hidx : Metrics.p90_index l < (Metrics.sort_durations l).length := by
    rw [p90_index_eq, sort_durations_length]
    omega
  refine ⟨hidx, ?_⟩
  unfold Metrics.p90_length
  rw [dif_pos hidx, List.getD_eq_getElem _ _ hidx]
  simp [List.get_eq_getElem]

/-! ## Claim C1 -/

/-- C1: for every non-empty list of N call durations, the aggregator's
90th-percentile value is the element at index `floor(0.9 × N)` of the
ascending-sorted list, clamped to the last index; in particular for N = 1
it is the single value, and for the ascending list
`[10, 20, ..., 100]` it is 100 (index 9), not 90. -/
theorem p90_nearest_rank_spec (l : List ℚ) (h : l ≠ []) :
    Metrics.p90_length l =
      some ((Metrics.sort_durations l).getD
        (min (Metrics.p90_index l) (l.length - 1)) 0) ∧
    (∀ a : ℚ, Metrics.p90_length [a] = some a) ∧
    Metrics.p90_length [10, 20, 30, 40, 50, 60, 70, 80, 90, 100] = some 100 := by
  obtain ⟨hidx, heq⟩ := p90_length_then_branch l h
  refine ⟨?_, ?_, ?_⟩
  · rw [heq]
    have hmin : min (Metrics.p90_index l) (l.length - 1) = Metrics.p90_index l := by
      rw [sort_durations_length] at hidx
      omega
    rw [hmin]
  · intro a
    have hs : Metrics.sort_durations [a] = [a] := rfl
    have hi : Metrics.p90_index [a] = 0 := by
      rw [Metrics.p90_index, hs]
      norm_num
    rw [Metrics.p90_length, dif_pos (by rw [hi, hs]; norm_num)]
    simp [hs, hi, List.get_eq_getElem]
  · have hs : Metrics.sort_durations [10, 20, 30, 40, 50, 60, 70, 80, 90, 100] =
        [10, 20, 30, 40, 50, 60, 70, 80, 90, 100] := by
      norm_num [Metrics.sort_durations, List.insertionSort, List.orderedInsert]
    have hi : Metrics.p90_index [10, 20, 30, 40, 50, 60, 70, 80, 90, 100] = 9 := by
      rw [Metrics.p90_index, hs]
      norm_num
    rw [Metrics.p90_length, dif_pos (by rw [hi, hs]; norm_num)]
    simp [hs, hi, List.get_eq_getElem]

/-- C1 witness: the theorem applied to the concrete list
`[10, 20, ..., 100]`. -/
theorem p90_nearest_rank_spec_witness :
    ([10, 20, 30, 40, 50, 60, 70, 80, 90, 100] : List ℚ) ≠ [] ∧
    Metrics.p90_length [10, 20, 30, 40, 50, 60, 70, 80, 90, 100] = some 100 :=
  ⟨by simp,
   (p90_nearest_rank_spec [10, 20, 30, 40, 50, 60, 70, 80, 90, 100]
     (by simp)).2.2⟩

/-! ## Claim C10 -/

/-- C10: for every non-empty duration list, the computed percentile index
`floor(0.9 × N)` is strictly below the (sorted) list length, so the
indexing is in bounds and the out-of-range fallback to the last element is
never taken: the result is literally the value at the unclamped index. -/
theorem p90_index_in_bounds (l : List ℚ) (h : l ≠ []) :
    Metrics.p90_index l < (Metrics.sort_durations l).length ∧
    Metrics.p90_length l =
      some ((Metrics.sort_durations l).getD (Metrics.p90_index l) 0) :=
  p90_length_then_branch l h

/-- C10 witness: the theorem applied to the singleton list `[7]`. -/
theorem p90_index_in_bounds_witness :
    ([7] : List ℚ) ≠ [] ∧
    (Metrics.p90_index [7] < (Metrics.sort_durations [(7 : ℚ)]).length ∧
     Metrics.p90_length [7] =
       some ((Metrics.sort_durations [(7 : ℚ)]).getD (Metrics.p90_index [7]) 0)) :=
  ⟨by simp, p90_index_in_bounds [7] (by simp)⟩

/-! ## Claim C7 -/

/-- C7: with no agents, the aggregator produces zero data rows, and the
serialized table is still well-formed: exactly the header row, whose
columns are `agent_id, avg_call_length_sec, p90_call_length_sec,
total_calls, date` — and in general the header row is always emitted
first. -/
theorem empty_metrics_csv_header_only (date_str : String) :
    Metrics.generate_csv [] date_str =
      [Metrics.csv_fieldnames.map Metrics.CsvCell.str] ∧
    (Metrics.generate_csv [] date_str).length = 1 ∧
    Metrics.csv_fieldnames =
      [("agent_id" : String), "avg_call_length_sec", "p90_call_length_sec",
       "total_calls", "date"] ∧
    ∀ metrics : List Metrics.AgentMetric,
      (Metrics.generate_csv metrics date_str).head? =
        some (Metrics.csv_fieldnames.map Metrics.CsvCell.str) := by
  refine ⟨rfl, rfl, rfl, ?_⟩
  intro metrics
  rfl

/-! ## Claim C3 -/

/-- C3: the monthly payment is exactly 0 when the financing term is not
positive (no error raised); total/term when the monthly rate
`annual rate / 12` is exactly zero; and otherwise the standard fixed-rate
amortization formula `P × r × (1+r)^n / ((1+r)^n − 1)`.  In particular the
module's own payment function (annual rate 0.05) returns 0 at term 0
regardless of the total price. -/
theorem monthly_payment_cases (annual_rate total_price : ℚ) (n : ℤ) :
    (n ≤ 0 → JD._calculate_monthly_payment_core annual_rate total_price n = 0) ∧
    (0 < n → annual_rate / 12 = 0 →
      JD._calculate_monthly_payment_core annual_rate total_price n =
        total_price / (n : ℚ)) ∧
    (0 < n → annual_rate / 12 ≠ 0 →
      JD._calculate_monthly_payment_core annual_rate total_price n =
        total_price * (annual_rate / 12) * (1 + annual_rate / 12) ^ n.toNat /
          ((1 + annual_rate / 12) ^ n.toNat - 1)) ∧
    (∀ P : ℚ, JD._calculate_monthly_payment P 0 = 0) := by
  refine ⟨?_, ?_, ?_, ?_⟩
  · intro hn
    simp [JD._calculate_monthly_payment_core, hn]
  · intro hn hr
    simp [JD._calculate_monthly_payment_core, not_le.mpr hn, hr]
  · intro hn hr
    simp [JD._calculate_monthly_payment_core, not_le.mpr hn, hr]
  · intro P
    simp [JD._calculate_monthly_payment, JD._calculate_monthly_payment_core]

/-- C3 witness: rate 0, total 120, term 12 goes through the rate-zero
branch and yields simple division. -/
theorem monthly_payment_cases_witness :
    (0 : ℤ) < 12 ∧ (0 : ℚ) / 12 = 0 ∧
    JD._calculate_monthly_payment_core 0 120 12 = 120 / ((12 : ℤ) : ℚ) :=
  ⟨by norm_num, by norm_num,
   (monthly_payment_cases 0 120 12).2.1 (by norm_num) (by norm_num)⟩

/-! ## Claim C2 -/

/-- C2: for every model resolved from the catalog and every parsed feature
list of length k, the quote pipeline computes options cost
`k × (base price × 0.1)`, subtotal `base price + options cost` and total
`subtotal × 1.08`; in particular 2 features on base price 100 give options
cost 20, subtotal 120 and total 129.6. -/
theorem quote_arithmetic (model optional_features : String) (financing_term : ℤ)
    (e : JD.EquipmentInfo)
    (h : List.lookup (pyUpper model) JD.EQUIPMENT_PRICING = some e) :
    JD.quote_totals model optional_features financing_term =
      some
        (((JD._parse_optional_features optional_features).length : ℚ) *
           (e.price * 0.1),
         e.price + ((JD._parse_optional_features optional_features).length : ℚ) *
           (e.price * 0.1),
         (e.price + ((JD._parse_optional_features optional_features).length : ℚ) *
           (e.price * 0.1)) * 1.08,
         JD._calculate_monthly_payment
           ((e.price +
             ((JD._parse_optional_features optional_features).length : ℚ) *
               (e.price * 0.1)) * 1.08)
           financing_term) ∧
    JD._calculate_options_cost [("front loader" : String), "mulching kit"] 100 = 20 ∧
    (100 : ℚ) + JD._calculate_options_cost [("front loader" : String), "mulching kit"] 100 = 120 ∧
    ((100 : ℚ) + JD._calculate_options_cost [("front loader" : String), "mulching kit"] 100) *
      JD.TAX_AND_FEES_MULTIPLIER = 129.6 := by
  refine ⟨?_, ?_, ?_, ?_⟩
  · simp only [JD.quote_totals, h]
    norm_num [JD._calculate_options_cost, JD.OPTIONS_COST_PERCENTAGE,
      JD.TAX_AND_FEES_MULTIPLIER]
  · norm_num [JD._calculate_options_cost, JD.OPTIONS_COST_PERCENTAGE]
  · norm_num [JD._calculate_options_cost, JD.OPTIONS_COST_PERCENTAGE]
  · norm_num [JD._calculate_options_cost, JD.OPTIONS_COST_PERCENTAGE,
      JD.TAX_AND_FEES_MULTIPLIER]

/-- C2 witness: model 1025r resolves and the two-feature exemplar
computes options cost 20. -/
theorem quote_arithmetic_witness :
    List.lookup (pyUpper ("1025r")) JD.EQUIPMENT_PRICING =
      some (⟨17500, "Compact Utility Tractor"⟩ : JD.EquipmentInfo) ∧
    JD._calculate_options_cost [("front loader" : String), "mulching kit"] 100 = 20 :=
  ⟨by decide,
   (quote_arithmetic ("1025r") ("front loader, mulching kit") 60
     ⟨17500, "Compact Utility Tractor"⟩ (by decide)).2.1⟩

/-! ## More substring helpers -/

theorem strContains_inner (x a t b : String) :
    strContains (x ++ (a ++ (t ++ b))) t := by
  unfold strContains
  simp only [String.data_append]
  exact ⟨x.data ++ a.data, b.data, by simp [List.append_assoc]⟩

theorem strContains_of_parts (x t b : String) :
    strContains (x ++ (t ++ b)) t := by
  unfold strContains
  simp only [String.data_append]
  exact ⟨x.data, b.data, by simp [List.append_assoc]⟩

theorem strContains_prefix (t b : String) : strContains (t ++ b) t := by
  unfold strContains
  rw [String.data_append]
  exact ⟨[], b.data, by simp⟩

/-! ## Claim C4 -/

/-- C4: whenever the uppercased model is not a catalog key, the quote tool
returns (it cannot raise: the embedding is total on this branch) the
plain-text lookup-failure message, which contains the words
`not found` and every valid model code of the catalog. -/
theorem unknown_model_soft_error (pyHash : String → ℤ)
    (quote_date date_part customer_name model optional_features : String)
    (financing_term : ℤ)
    (h : List.lookup (pyUpper model) JD.EQUIPMENT_PRICING = none) :
    JD.generate_john_deere_quote pyHash quote_date date_part customer_name
        model optional_features financing_term =
      "Model " ++ model ++ " not found. Available models: " ++
        String.intercalate (", ") (JD.EQUIPMENT_PRICING.map Prod.fst) ∧
    strContains (JD.generate_john_deere_quote pyHash quote_date date_part
      customer_name model optional_features financing_term) ("not found") ∧
    ∀ k ∈ JD.EQUIPMENT_PRICING.map Prod.fst,
      strContains (JD.generate_john_deere_quote pyHash quote_date date_part
        customer_name model optional_features financing_term) k := by
  have heq : JD.generate_john_deere_quote pyHash quote_date date_part
      customer_name model optional_features financing_term =
      "Model " ++ model ++ " not found. Available models: " ++
        String.intercalate (", ") (JD.EQUIPMENT_PRICING.map Prod.fst) := by
    simp only [JD.generate_john_deere_quote, h]
  have hkeys : String.intercalate (", ") (JD.EQUIPMENT_PRICING.map Prod.fst) =
      "1025R, 3038E, 5075E, 6155R, S760, S780, DB60" := by decide
  refine ⟨heq, ?_, ?_⟩
  · rw [heq]
    apply strContains_extend_right
    rw [show (" not found. Available models: " : String) =
        " " ++ ("not found" ++ ". Available models: ") from by decide]
    exact strContains_inner ("Model " ++ model) (" ") ("not found")
      (". Available models: ")
  · intro k hk
    rw [heq, hkeys]
    apply strContains_extend_left
    fin_cases hk
    · rw [show ("1025R, 3038E, 5075E, 6155R, S760, S780, DB60" : String) =
          "1025R" ++ ", 3038E, 5075E, 6155R, S760, S780, DB60" from by decide]
      exact strContains_prefix _ _
    · rw [show ("1025R, 3038E, 5075E, 6155R, S760, S780, DB60" : String) =
          "1025R, " ++ ("3038E" ++ ", 5075E, 6155R, S760, S780, DB60") from by decide]
      exact strContains_of_parts _ _ _
    · rw [show ("1025R, 3038E, 5075E, 6155R, S760, S780, DB60" : String) =
          "1025R, 3038E, " ++ ("5075E" ++ ", 6155R, S760, S780, DB60") from by decide]
      exact strContains_of_parts _ _ _
    · rw [show ("1025R, 3038E, 5075E, 6155R, S760, S780, DB60" : String) =
          "1025R, 3038E, 5075E, " ++ ("6155R" ++ ", S760, S780, DB60") from by decide]
      exact strContains_of_parts _ _ _
    · rw [show ("1025R, 3038E, 5075E, 6155R, S760, S780, DB60" : String) =
          "1025R, 3038E, 5075E, 6155R, " ++ ("S760" ++ ", S780, DB60") from by decide]
      exact strContains_of_parts _ _ _
    · rw [show ("1025R, 3038E, 5075E, 6155R, S760, S780, DB60" : String) =
          "1025R, 3038E, 5075E, 6155R, S760, " ++ ("S780" ++ ", DB60") from by decide]
      exact strContains_of_parts _ _ _
    · rw [show ("1025R, 3038E, 5075E, 6155R, S760, S780, DB60" : String) =
          "1025R, 3038E, 5075E, 6155R, S760, S780, " ++ "DB60" from by decide]
      exact strContains_suffix _ _

/-- C4 witness: the unknown model X9000 yields exactly the expected
message. -/
theorem unknown_model_soft_error_witness :
    List.lookup (pyUpper ("X9000")) JD.EQUIPMENT_PRICING = none ∧
    JD.generate_john_deere_quote (fun _ => 0) ("d") ("p") ("Ann") ("X9000")
        ("") 60 =
      "Model X9000 not found. Available models: 1025R, 3038E, 5075E, 6155R, S760, S780, DB60" :=
  ⟨by decide,
   ((unknown_model_soft_error (fun _ => 0) ("d") ("p") ("Ann") ("X9000") ("")
     60 (by decide)).1).trans (by decide)⟩

/-! ## Claim C5 -/

/-- When the whole feature string strips to empty, every comma component
also strips to empty, so the split-trim-drop pipeline yields no
features. -/
theorem parse_filter_empty_of_strip_empty (s : String) (h : pyStrip s = "") :
    ((pySplitComma s).filter (fun f => pyStrip f != "")).map pyStrip = [] := by
  have hws : ∀ a ∈ s.data, a.isWhitespace = true := (pyStrip_eq_empty_iff s).mp h
  have hfilter : (pySplitComma s).filter (fun f => pyStrip f != "") = [] := by
    rw [List.filter_eq_nil_iff]
    intro f hf
    obtain ⟨comp, hcomp, rfl⟩ := List.mem_map.mp hf
    have hws2 : ∀ a ∈ comp, a.isWhitespace = true := fun a ha =>
      hws a (mem_of_mem_pySplitCommaChars s.data comp hcomp a ha)
    have hnil : pyStripChars comp = [] := (pyStripChars_eq_nil_iff comp).mpr hws2
    simp [pyStrip, hnil]
  rw [hfilter]
  rfl

/-- C5: the parsed feature list is split-on-commas, trim, drop-empties;
an all-whitespace (or empty) feature string yields zero features with
options cost exactly 0, and the rendered quote then shows
`None selected`. -/
theorem parse_features_spec (s : String) :
    JD._parse_optional_features s =
      ((pySplitComma s).filter (fun f => pyStrip f != "")).map pyStrip ∧
    (pyStrip s = "" →
      JD._parse_optional_features s = [] ∧
      ∀ base_price : ℚ,
        JD._calculate_options_cost (JD._parse_optional_features s) base_price = 0) ∧
    (∀ (pyHash : String → ℤ)
        (quote_date date_part customer_name model : String)
        (financing_term : ℤ) (e : JD.EquipmentInfo),
      List.lookup (pyUpper model) JD.EQUIPMENT_PRICING = some e →
      pyStrip s = "" →
      strContains
        (JD.generate_john_deere_quote pyHash quote_date date_part
          customer_name model s financing_term) ("None selected")) := by
  refine ⟨?_, ?_, ?_⟩
  · by_cases hs : pyStrip s = ""
    · rw [JD._parse_optional_features, if_pos hs,
        parse_filter_empty_of_strip_empty s hs]
    · rw [JD._parse_optional_features, if_neg hs]
  · intro hs
    have hp : JD._parse_optional_features s = [] := by
      rw [JD._parse_optional_features, if_pos hs]
    refine ⟨hp, ?_⟩
    intro base_price
    simp [hp, JD._calculate_options_cost]
  · intro pyHash quote_date date_part customer_name model financing_term e he hs
    have hp : JD._parse_optional_features s = [] := by
      rw [JD._parse_optional_features, if_pos hs]
    have hopt : ∀ oc : ℚ,
        strContains (JD.options_section ("• None selected") oc)
          ("None selected") := by
      intro oc
      unfold JD.options_section
      apply strContains_extend_right
      apply strContains_extend_right
      rw [show ("• None selected" : String) = "• " ++ "None selected" from by
        decide]
      exact strContains_right_mid _ _ _
    simp only [JD.generate_john_deere_quote, he, hp, JD._format_quote,
      List.isEmpty_nil, if_true]
    apply strContains_extend_right
    apply strContains_extend_right
    apply strContains_extend_right
    apply strContains_extend_left
    exact hopt _

/-- C5 witness: the empty feature string with a resolved model. -/
theorem parse_features_spec_witness :
    pyStrip ("") = "" ∧
    List.lookup (pyUpper ("1025R")) JD.EQUIPMENT_PRICING =
      some (⟨17500, "Compact Utility Tractor"⟩ : JD.EquipmentInfo) ∧
    strContains
      (JD.generate_john_deere_quote (fun _ => 0) ("d") ("p") ("Ann") ("1025R")
        ("") 60) ("None selected") :=
  ⟨by decide, by decide,
   (parse_features_spec ("")).2.2 (fun _ => 0) ("d") ("p") ("Ann") ("1025R")
     60 ⟨17500, "Compact Utility Tractor"⟩ (by decide) (by decide)⟩

/-! ## Claim C6 -/

/-- C6 counterexample: the claim quantifies over every model string, but
for an unknown model the error message echoes the original casing, so the
output for `x9000` differs from the output for its uppercasing `X9000`
with otherwise identical inputs. -/
theorem case_insensitive_cex :
    pyUpper ("x9000") = "X9000" ∧
    JD.generate_john_deere_quote (fun _ => 0) ("d") ("p") ("Ann") ("x9000")
        ("") 60 ≠
      JD.generate_john_deere_quote (fun _ => 0) ("d") ("p") ("Ann") ("X9000")
        ("") 60 := by
  constructor
  · decide
  · decide

/-- C6 amended: lookup is case-insensitive via uppercasing, and whenever
the uppercased model resolves in the catalog the quote for the original
casing is identical to the quote for the uppercased model (in particular
`1025r` resolves identically to `1025R`); only the not-found message
distinguishes casings, by echoing the input. -/
theorem case_insensitive_resolved (pyHash : String → ℤ)
    (quote_date date_part customer_name model optional_features : String)
    (financing_term : ℤ)
    (h : (List.lookup (pyUpper model) JD.EQUIPMENT_PRICING).isSome = true) :
    JD.generate_john_deere_quote pyHash quote_date date_part customer_name
        model optional_features financing_term =
      JD.generate_john_deere_quote pyHash quote_date date_part customer_name
        (pyUpper model) optional_features financing_term := by
  obtain ⟨e, he⟩ := Option.isSome_iff_exists.mp h
  simp only [JD.generate_john_deere_quote, pyUpper_pyUpper, he]

/-- C6 amended witness: `1025r` against `1025R`. -/
theorem case_insensitive_resolved_witness :
    (List.lookup (pyUpper ("1025r")) JD.EQUIPMENT_PRICING).isSome = true ∧
    JD.generate_john_deere_quote (fun _ => 0) ("d") ("p") ("Ann") ("1025r")
        ("") 60 =
      JD.generate_john_deere_quote (fun _ => 0) ("d") ("p") ("Ann")
        (pyUpper ("1025r")) ("") 60 :=
  ⟨by decide,
   case_insensitive_resolved (fun _ => 0) ("d") ("p") ("Ann") ("1025r") ("")
     60 (by decide)⟩

/-! ## Claim C9 -/

/-- C9: the constant-driven implementation (feature fraction 0.1, tax
multiplier 1.08, annual rate 0.05) and the inline wip implementation with
those literals hard-coded compute equal options cost, subtotal, total
price and monthly payment on every model code, feature string and
financing term (the customer name does not enter the numeric pipeline of
either variant). -/
theorem variant_numeric_equivalence (model optional_features : String)
    (financing_term : ℤ) :
    JD.quote_totals model optional_features financing_term =
      JDWip.quote_totals model optional_features financing_term := by
  have hcat : JDWip.equipment_pricing = JD.EQUIPMENT_PRICING := rfl
  have hparse : JD._parse_optional_features optional_features =
      ((pySplitComma optional_features).filter
        (fun f => pyStrip f != "")).map pyStrip := by
    by_cases hs : pyStrip optional_features = ""
    · rw [JD._parse_optional_features, if_pos hs,
        parse_filter_empty_of_strip_empty _ hs]
    · rw [JD._parse_optional_features, if_neg hs]
  unfold JD.quote_totals JDWip.quote_totals
  rw [hcat]
  cases hl : List.lookup (pyUpper model) JD.EQUIPMENT_PRICING with
  | none => rfl
  | some e =>
    simp only [hparse, JD._calculate_options_cost, JD.OPTIONS_COST_PERCENTAGE,
      JD.TAX_AND_FEES_MULTIPLIER, JD._calculate_monthly_payment,
      JD._calculate_monthly_payment_core, JD.DEFAULT_ANNUAL_INTEREST_RATE]
    by_cases hft : financing_term ≤ 0
    · simp [hft, not_lt.mpr hft]
    · have h2 : (0.05 : ℚ) / 12 ≠ 0 := by norm_num
      simp [hft, not_le.mp hft, h2]

/-! ## Formatting lemmas -/

theorem takeWhile_append_of_all {α : Type} (p : α → Bool) (l₁ : List α)
    (a : α) (l₂ : List α) (h1 : ∀ x ∈ l₁, p x = true) (h2 : p a = false) :
    (l₁ ++ a :: l₂).takeWhile p = l₁ := by
  induction l₁ with
  | nil => simp [List.takeWhile_cons, h2]
  | cons b bs ih =>
    have hb : p b = true := h1 b (List.mem_cons_self _ _)
    simp [List.takeWhile_cons, hb,
      ih (fun x hx => h1 x (List.mem_cons_of_mem _ hx))]

theorem decimalPlaces_append_frac (a b : String)
    (hb : ∀ c ∈ b.data, (c != '.') = true) :
    decimalPlaces (a ++ "." ++ b) = b.data.length := by
  have hdata : (a ++ "." ++ b).data = a.data ++ '.' :: b.data := by
    rw [String.data_append, String.data_append]
    simp [List.append_assoc]
  unfold decimalPlaces
  rw [hdata, if_pos (by simp)]
  rw [List.reverse_append, List.reverse_cons, List.append_assoc]
  have hb2 : ∀ x ∈ b.data.reverse, (x != '.') = true := fun x hx =>
    hb x (List.mem_reverse.mp hx)
  rw [show (['.'] ++ a.data.reverse : List Char) = '.' :: a.data.reverse from
    rfl]
  rw [takeWhile_append_of_all _ _ _ _ hb2 (by decide)]
  rw [List.length_reverse]

theorem padZeros_two_facts :
    ∀ n, n < 100 → (∀ c ∈ (padZeros 2 n).data, (c != '.') = true) ∧
      (padZeros 2 n).data.length = 2 := by decide

theorem fmtCommaFixed_two_decimals (q : ℚ) :
    decimalPlaces (fmtCommaFixed 2 q) = 2 := by
  have h20 : ¬((2 : ℕ) = 0) := by norm_num
  simp only [fmtCommaFixed, h20, if_false]
  have hfp : (roundHalfEven (q * 10 ^ 2)).toNat % 10 ^ 2 < 100 := by
    have h100 : (10 : ℕ) ^ 2 = 100 := by norm_num
    rw [h100]
    exact Nat.mod_lt _ (by norm_num)
  obtain ⟨h1, h2⟩ := padZeros_two_facts _ hfp
  rw [decimalPlaces_append_frac _ _ h1, h2]

theorem apr_display_v1_eq : JD.apr_display = "5" := by
  have h5 : roundHalfEven (JD.DEFAULT_ANNUAL_INTEREST_RATE * 100 * 10 ^ (0 : ℕ)) = 5 := by
    unfold roundHalfEven
    norm_num [JD.DEFAULT_ANNUAL_INTEREST_RATE]
  simp only [JD.apr_display, fmtFixed, h5]
  decide

theorem apr_display_v2_eq : JDSrc.apr_display = "4.9" := by
  have h49 : roundHalfEven (JDSrc.DEFAULT_INTEREST_RATE * 100 * 10 ^ (1 : ℕ)) = 49 := by
    unfold roundHalfEven
    norm_num [JDSrc.DEFAULT_INTEREST_RATE]
  simp only [JDSrc.apr_display, fmtFixed, h49]
  decide

theorem strContains_head2 (a b r : String) :
    strContains (a ++ (b ++ r)) (a ++ b) := by
  unfold strContains
  simp only [String.data_append]
  exact ⟨[], r.data, by simp [List.append_assoc]⟩

/-! ## Claim C8 -/

/-- C8 counterexample: the demo_agent variant formats the financing APR
with `:.0f`, so the rendered APR field is `5` — zero decimal places, not
the claimed one — and a concrete rendered quote contains `5% APR` (not
`5.0% APR`). -/
theorem apr_decimal_cex :
    JD.apr_display ≠ fmtFixed 1 (JD.DEFAULT_ANNUAL_INTEREST_RATE * 100) ∧
    decimalPlaces JD.apr_display = 0 ∧
    strContains
      (JD._format_quote (fun _ => 0) ("d") ("p") ("Ann") ("1025R")
        ("Compact Utility Tractor") 17500 [] 0 18900 60 356) ("5% APR") := by
  have h50 : fmtFixed 1 (JD.DEFAULT_ANNUAL_INTEREST_RATE * 100) = "5.0" := by
    have h5 : roundHalfEven
        (JD.DEFAULT_ANNUAL_INTEREST_RATE * 100 * 10 ^ (1 : ℕ)) = 50 := by
      unfold roundHalfEven
      norm_num [JD.DEFAULT_ANNUAL_INTEREST_RATE]
    simp only [fmtFixed, h5]
    decide
  refine ⟨?_, ?_, ?_⟩
  · rw [apr_display_v1_eq, h50]
    decide
  · rw [apr_display_v1_eq]
    decide
  · simp only [JD._format_quote, JD.header_section, JD.equipment_section,
      JD.options_section, JD.pricing_section, JD.financing_section,
      apr_display_v1_eq, String.append_assoc]
    rw [show ("% APR\nMonthly Payment: $" : String) =
        "% APR" ++ "\nMonthly Payment: $" from by decide]
    rw [show ("5% APR" : String) = "5" ++ "% APR" from by decide]
    simp only [String.append_assoc]
    repeat
      first
      | exact strContains_head2 _ _ _
      | apply strContains_extend_left

/-- C8 amended: money fields are rendered with thousands separators and
exactly two decimal places, and the section order of the template is
header, equipment, options, pricing, financing, validity disclaimer; the
financing APR, however, is rendered with one decimal place only in the
src variant (`4.9`), while the demo_agent variant renders it with zero
decimal places. -/
theorem quote_formatting_amended :
    (∀ q : ℚ, decimalPlaces (fmtCommaFixed 2 q) = 2) ∧
    fmtCommaFixed 2 (17500 : ℚ) = "17,500.00" ∧
    fmtCommaFixed 2 (1234567.891 : ℚ) = "1,234,567.89" ∧
    decimalPlaces JD.apr_display = 0 ∧
    (JDSrc.apr_display = "4.9" ∧ decimalPlaces JDSrc.apr_display = 1) ∧
    (∀ (pyHash : String → ℤ)
        (quote_date date_part customer_name model_upper equipment_type : String)
        (base_price : ℚ) (features_list : List String)
        (options_cost total_price : ℚ) (financing_term : ℤ)
        (monthly_payment : ℚ),
      JD._format_quote pyHash quote_date date_part customer_name model_upper
          equipment_type base_price features_list options_cost total_price
          financing_term monthly_payment =
        "JOHN DEERE EQUIPMENT QUOTE\nQuote #" ++
          JD._generate_quote_number pyHash date_part customer_name ++
          " | Date: " ++ quote_date ++ "\nCustomer: " ++ customer_name ++
          "\n\nEQUIPMENT:\n• Model: " ++ model_upper ++ "\n• Type: " ++
          equipment_type ++ "\n• Base Price: $" ++ fmtCommaFixed 2 base_price ++
          "\n\nOPTIONAL FEATURES:\n" ++
          (if features_list.isEmpty then "• None selected"
           else String.intercalate ("\n")
             (features_list.map (fun feature => "• " ++ feature))) ++
          "\nOptions Cost: $" ++ fmtCommaFixed 2 options_cost ++
          "\n\nTOTAL PRICE: $" ++ fmtCommaFixed 2 total_price ++
          "\n(Includes taxes, delivery, and setup)\n\nFINANCING:\nTerm: " ++
          toString financing_term ++ " months @ " ++ JD.apr_display ++
          "% APR\nMonthly Payment: $" ++ fmtCommaFixed 2 monthly_payment ++
          "\n\n" ++ JD.SUCCESS_QUOTE_VALID) ∧
    (∀ (customer_name equipment_model : String)
        (base_price options_cost subtotal tax_and_fees total
          monthly_payment : ℚ)
        (quote_number quote_date : String),
      strContains
        (JDSrc._format_quote customer_name equipment_model base_price
          options_cost subtotal tax_and_fees total monthly_payment
          quote_number quote_date)
        (JDSrc.apr_display ++ ("% APR"))) := by
  refine ⟨fmtCommaFixed_two_decimals, ?_, ?_, ?_, ⟨apr_display_v2_eq, ?_⟩,
    ?_, ?_⟩
  · have hr : roundHalfEven ((17500 : ℚ) * 10 ^ (2 : ℕ)) = 1750000 := by
      unfold roundHalfEven
      norm_num
    have h20 : ¬((2 : ℕ) = 0) := by norm_num
    simp only [fmtCommaFixed, h20, if_false, hr]
    decide
  · have hr : roundHalfEven ((1234567.891 : ℚ) * 10 ^ (2 : ℕ)) = 123456789 := by
      unfold roundHalfEven
      norm_num
    have h20 : ¬((2 : ℕ) = 0) := by norm_num
    simp only [fmtCommaFixed, h20, if_false, hr]
    decide
  · rw [apr_display_v1_eq]
    decide
  · rw [apr_display_v2_eq]
    decide
  · intro pyHash quote_date date_part customer_name model_upper equipment_type
      base_price features_list options_cost total_price financing_term
      monthly_payment
    rw [show
        ("\n(Includes taxes, delivery, and setup)\n\nFINANCING:\nTerm: " :
          String) =
        "\n(Includes taxes, delivery, and setup)" ++
          "\n\nFINANCING:\nTerm: " from by decide]
    simp only [JD._format_quote, JD.header_section, JD.equipment_section,
      JD.options_section, JD.pricing_section, JD.financing_section,
      String.append_assoc]
  · intro customer_name equipment_model base_price options_cost subtotal
      tax_and_fees total monthly_payment quote_number quote_date
    simp only [JDSrc._format_quote, String.append_assoc]
    rw [show ("% APR\nMonthly Payment: $" : String) =
        "% APR" ++ "\nMonthly Payment: $" from by decide]
    simp only [String.append_assoc]
    repeat
      first
      | exact strContains_head2 _ _ _
      | apply strContains_extend_left
